import Mathlib

/-!
Verification of the `FundMe` funding-ledger contract (`contract/src/FundMe.sol`).

The contract is embedded shallowly:

* Addresses and token amounts are `Nat` (`uint256` arithmetic here never
  overflows: the only operations are `+` on tracked contributions and the
  token's own balance moves, and Solidity 0.8 would revert on overflow
  rather than wrap, so `Nat` agrees with the source on every non-reverting
  run).
* The contract is written against the `IERC20` interface, so the embedded
  operations are generic over a `TokenService σ` record of the three
  capabilities the contract uses (`transferFrom`, `transfer`, `balanceOf`).
  An external call that "reports failure" (returns `false`) is modelled as
  `none`; since the contract immediately reverts in that case, the failing
  call's own state change is never observable and need not be carried.
* `revert` in Solidity aborts the transaction and rolls back every state
  change made inside the call, including the caller contract's own earlier
  writes.  A fallible operation therefore returns
  `Except FundMeError (σ × FundMeState)`: on `.error` the transaction
  reverts and the observable post-state is the pre-state.  `runFund` /
  `runWithdraw` make this observable outcome explicit.
-/

/-- `uint256 public constant MINIMUM_USDC = 1 * 1e6;` -/
def MINIMUM_USDC : Nat := 1 * 1000000

/-- The `IERC20` capabilities the contract consumes, over an abstract token
state `σ`.  `transferFrom payer recipient amount` and
`transfer src dst amount` return `some` of the new token state on reported
success and `none` on reported failure; `balanceOf` is a read-only query. -/
structure TokenService (σ : Type) where
  transferFrom : σ → Nat → Nat → Nat → Option σ
  transfer : σ → Nat → Nat → Nat → Option σ
  balanceOf : σ → Nat → Nat

/-- The immutable deployment data: `i_owner` (fixed to the constructing
caller) and the contract's own address `self` (`address(this)`). -/
structure FundMeConfig where
  i_owner : Nat
  self : Nat

/-- The contract's mutable storage: the contribution mapping
`addressToAmountFunded` (Solidity mappings default to `0`) and the funder
roster `s_funders`. -/
structure FundMeState where
  addressToAmountFunded : Nat → Nat
  s_funders : List Nat

/-- The contract's error taxonomy: `FundMe__NotOwner`,
`FundMe__NotEnoughFunds` (the spec's `InsufficientAmount`), and
`FundMe__TransferFailed`. -/
inductive FundMeError where
  | NotOwner
  | NotEnoughFunds
  | TransferFailed
deriving DecidableEq, Repr

/-- Storage immediately after the constructor runs: empty mapping, empty
roster. -/
def initState : FundMeState :=
  { addressToAmountFunded := fun _ => 0, s_funders := [] }

/-- `FundMe.fund(uint256 _amount)` called by `sender`:
reject `_amount < MINIMUM_USDC`; then `usdcToken.transferFrom(msg.sender,
address(this), _amount)`, reverting with `TransferFailed` on reported
failure; on success push `msg.sender` onto `s_funders` when its recorded
contribution is zero, then add `_amount` to its contribution entry. -/
def fund {σ : Type} (tok : TokenService σ) (cfg : FundMeConfig) (ts : σ)
    (st : FundMeState) (sender amount : Nat) :
    Except FundMeError (σ × FundMeState) :=
  if amount < MINIMUM_USDC then .error .NotEnoughFunds
  else
    match tok.transferFrom ts sender cfg.self amount with
    | none => .error .TransferFailed
    | some ts2 =>
      let st1 :=
        if st.addressToAmountFunded sender = 0 then
          { st with s_funders := st.s_funders ++ [sender] }
        else st
      .ok (ts2,
        { st1 with
          addressToAmountFunded := fun a =>
            if a = sender then st1.addressToAmountFunded a + amount
            else st1.addressToAmountFunded a })

/-- The `withdraw` loop `for (funderIndex = 0; funderIndex < s_funders.length;
funderIndex++) { addressToAmountFunded[s_funders[funderIndex]] = 0; }`:
front-to-back traversal of the roster, zeroing each funder's entry. -/
def resetFunders (m : Nat → Nat) : List Nat → (Nat → Nat)
  | [] => m
  | funder :: rest => resetFunders (fun a => if a = funder then 0 else m a) rest

/-- `FundMe.withdraw()` called by `sender`: revert with `NotOwner` unless
`sender` is `i_owner`; zero every roster member's contribution entry, replace
`s_funders` with the empty array, read `usdcToken.balanceOf(address(this))`,
and `usdcToken.transfer(i_owner, balance)`, reverting with `TransferFailed`
on reported failure.  The local zeroing precedes the external call in the
source; a revert rolls it back, so it only survives into the `.ok` result. -/
def withdraw {σ : Type} (tok : TokenService σ) (cfg : FundMeConfig) (ts : σ)
    (st : FundMeState) (sender : Nat) :
    Except FundMeError (σ × FundMeState) :=
  if sender ≠ cfg.i_owner then .error .NotOwner
  else
    let st1 : FundMeState :=
      { addressToAmountFunded := resetFunders st.addressToAmountFunded st.s_funders
        s_funders := [] }
    let balance := tok.balanceOf ts cfg.self
    match tok.transfer ts cfg.self cfg.i_owner balance with
    | none => .error .TransferFailed
    | some ts2 => .ok (ts2, st1)

/-- Observable outcome of a `fund` transaction: on revert (`.error`) the
pre-state is what the world keeps; on success the new token and contract
states are committed. -/
def runFund {σ : Type} (tok : TokenService σ) (cfg : FundMeConfig) (ts : σ)
    (st : FundMeState) (sender amount : Nat) :
    Option FundMeError × σ × FundMeState :=
  match fund tok cfg ts st sender amount with
  | .error e => (some e, ts, st)
  | .ok (ts2, st2) => (none, ts2, st2)

/-- Observable outcome of a `withdraw` transaction, with revert rollback as
in `runFund`. -/
def runWithdraw {σ : Type} (tok : TokenService σ) (cfg : FundMeConfig) (ts : σ)
    (st : FundMeState) (sender : Nat) :
    Option FundMeError × σ × FundMeState :=
  match withdraw tok cfg ts st sender with
  | .error e => (some e, ts, st)
  | .ok (ts2, st2) => (none, ts2, st2)

/-- Sequential balance move of a fungible token: debit `src`, then credit
`dst` (well-defined also when `src = dst`). -/
def moveBal (b : Nat → Nat) (src dst amount : Nat) : Nat → Nat :=
  let b1 := fun a => if a = src then b src - amount else b a
  fun a => if a = dst then b1 dst + amount else b1 a

/-- Modelled from the spec: the state of the external fungible-token service
(§6), whose implementation (OpenZeppelin ERC20 / USDC, `MockUSDC` in tests)
is not under `src/`: per-holder balances and per-(payer, recipient)
allowances. -/
structure ERC20State where
  balances : Nat → Nat
  allowances : Nat → Nat → Nat

/-- Modelled from the spec: `pullFrom(payer, recipient, amount)` (§6) —
succeeds iff the payer's allowance to the recipient and the payer's balance
both cover `amount`; on success moves `amount` and consumes that much
allowance. -/
def erc20TransferFrom (ts : ERC20State) (payer recipient amount : Nat) :
    Option ERC20State :=
  if amount ≤ ts.allowances payer recipient ∧ amount ≤ ts.balances payer then
    some
      { balances := moveBal ts.balances payer recipient amount
        allowances := fun p r =>
          if p = payer ∧ r = recipient then ts.allowances p r - amount
          else ts.allowances p r }
  else none

/-- Modelled from the spec: `push(recipient, amount)` (§6) — move `amount`
out of the caller's (`src`'s) own balance; succeeds iff the balance covers
`amount`. -/
def erc20Transfer (ts : ERC20State) (src dst amount : Nat) :
    Option ERC20State :=
  if amount ≤ ts.balances src then
    some { ts with balances := moveBal ts.balances src dst amount }
  else none

/-- Modelled from the spec: the token service assembled from the three §6
capabilities, with `balanceOf` reading the balances table. -/
def erc20 : TokenService ERC20State :=
  { transferFrom := erc20TransferFrom
    transfer := erc20Transfer
    balanceOf := fun ts h => ts.balances h }

/-- A token double whose external calls always report failure; used to
exercise the contract's `TransferFailed` paths. -/
def failTok : TokenService Unit :=
  { transferFrom := fun _ _ _ _ => none
    transfer := fun _ _ _ _ => none
    balanceOf := fun _ _ => 0 }

/-- Contract states reachable from construction by completed (successful)
`fund` / `withdraw` transactions against any token service.  A reverted
transaction leaves the state unchanged, so no rule is needed for it. -/
inductive Reachable (cfg : FundMeConfig) : FundMeState → Prop where
  | init : Reachable cfg initState
  | fundStep {σ : Type} (tok : TokenService σ) (ts ts2 : σ)
      (st st2 : FundMeState) (sender amount : Nat) :
      Reachable cfg st → fund tok cfg ts st sender amount = .ok (ts2, st2) →
      Reachable cfg st2
  | withdrawStep {σ : Type} (tok : TokenService σ) (ts ts2 : σ)
      (st st2 : FundMeState) (sender : Nat) :
      Reachable cfg st → withdraw tok cfg ts st sender = .ok (ts2, st2) →
      Reachable cfg st2

/-- Deployment fixture used by concrete witnesses: owner address `1`,
contract address `2`. -/
def cfg0 : FundMeConfig := { i_owner := 1, self := 2 }

/-- Empty token fixture: all balances and allowances zero. -/
def ts0 : ERC20State := { balances := fun _ => 0, allowances := fun _ _ => 0 }

/-- Token fixture for successful-deposit witnesses: address `5` holds
`3000000` units and has granted the contract (address `2`) an allowance of
`3000000`. -/
def tsW : ERC20State :=
  { balances := fun a => if a = 5 then 3000000 else 0
    allowances := fun p r => if p = 5 ∧ r = 2 then 3000000 else 0 }

/-- Token state after pulling `1000000` units from address `5` in `tsW`. -/
def tsW1 : ERC20State := (erc20.transferFrom tsW 5 2 1000000).getD tsW

/-- Token state after pulling a further `1000000` units from address `5` in
`tsW1`. -/
def tsW2 : ERC20State := (erc20.transferFrom tsW1 5 2 1000000).getD tsW1

/-- Token fixture for the sweep witness: the contract (address `2`) holds
`350` units, the owner (address `1`) holds `7`. -/
def tsC3 : ERC20State :=
  { balances := fun a => if a = 2 then 350 else if a = 1 then 7 else 0
    allowances := fun _ _ => 0 }

/-- Ledger fixture for the sweep witness: funders `3` (contribution `100`)
and `4` (contribution `250`). -/
def stC3 : FundMeState :=
  { addressToAmountFunded := fun a =>
      if a = 3 then 100 else if a = 4 then 250 else 0
    s_funders := [3, 4] }

/-- Ledger fixture for the failing-push scenarios: funder `5` with
contribution `100` on the roster. -/
def stC1 : FundMeState :=
  { addressToAmountFunded := fun a => if a = 5 then 100 else 0
    s_funders := [5] }

/-- World after funder `5` successfully deposits the minimum amount from a
fresh deployment. -/
def wC2a : Option FundMeError × ERC20State × FundMeState :=
  runFund erc20 cfg0 tsW initState 5 1000000

/-- World after the owner then successfully withdraws. -/
def wC2b : Option FundMeError × ERC20State × FundMeState :=
  runWithdraw erc20 cfg0 wC2a.2.1 wC2a.2.2 cfg0.i_owner

/-- The bookkeeping invariant the two storage structures maintain together:
the roster has no duplicate entries, and an identity is on the roster
exactly when its recorded contribution is nonzero. -/
def RosterInv (st : FundMeState) : Prop :=
  st.s_funders.Nodup ∧
  ∀ a, a ∈ st.s_funders ↔ st.addressToAmountFunded a ≠ 0

/-- Ledger state reached by funder `5` depositing the minimum amount from a
fresh deployment (the committed state of `wC2a`). -/
def stAfter : FundMeState :=
  ((fund erc20 cfg0 tsW initState 5 1000000).toOption.getD (tsW, initState)).2

/-- C4: for every caller and every amount strictly below `MINIMUM_USDC`,
`fund` reverts with `NotEnoughFunds` (the spec's `InsufficientAmount`) and
the observable state — contribution mapping, roster, and token state — is
unchanged.  The statement holds for every token service and token state,
which is the shallow form of "no call to the external token service is
made": the outcome does not depend on the token at all. -/
theorem fund_below_minimum {σ : Type} (tok : TokenService σ)
    (cfg : FundMeConfig) (ts : σ) (st : FundMeState) (sender amount : Nat)
    (h : amount < MINIMUM_USDC) :
    runFund tok cfg ts st sender amount = (some .NotEnoughFunds, ts, st) := by
  simp [runFund, fund, h]

/-- Witness for `fund_below_minimum` at amount `3` against the ERC20
double. -/
theorem fund_below_minimum_witness :
    3 < MINIMUM_USDC ∧
      runFund erc20 cfg0 ts0 initState 5 3 =
        (some .NotEnoughFunds, ts0, initState) :=
  ⟨by decide, fund_below_minimum erc20 cfg0 ts0 initState 5 3 (by decide)⟩

/-- C5: for every caller and every amount at or above `MINIMUM_USDC`, when
the external pull (`transferFrom`) reports failure, `fund` reverts with
`TransferFailed` and the observable state is exactly the pre-state: no
contribution or roster change is visible. -/
theorem fund_pull_failure {σ : Type} (tok : TokenService σ)
    (cfg : FundMeConfig) (ts : σ) (st : FundMeState) (sender amount : Nat)
    (hmin : MINIMUM_USDC ≤ amount)
    (hfail : tok.transferFrom ts sender cfg.self amount = none) :
    runFund tok cfg ts st sender amount = (some .TransferFailed, ts, st) := by
  simp [runFund, fund, Nat.not_lt.mpr hmin, hfail]

/-- Witness for `fund_pull_failure` at the minimum amount against the
always-failing token double. -/
theorem fund_pull_failure_witness :
    MINIMUM_USDC ≤ 1000000 ∧
      runFund failTok cfg0 () initState 5 1000000 =
        (some .TransferFailed, (), initState) :=
  ⟨by decide,
    fund_pull_failure failTok cfg0 () initState 5 1000000 (by decide) rfl⟩

/-- C6: for every caller other than the owner fixed at construction,
`withdraw` reverts with `NotOwner` and the observable state — contribution
mapping, roster, and the entire token state (hence all token balances) — is
unchanged, for every token service. -/
theorem withdraw_not_owner {σ : Type} (tok : TokenService σ)
    (cfg : FundMeConfig) (ts : σ) (st : FundMeState) (sender : Nat)
    (h : sender ≠ cfg.i_owner) :
    runWithdraw tok cfg ts st sender = (some .NotOwner, ts, st) := by
  simp [runWithdraw, withdraw, h]

/-- Witness for `withdraw_not_owner`: caller `5` against owner `1`. -/
theorem withdraw_not_owner_witness :
    (5 : Nat) ≠ cfg0.i_owner ∧
      runWithdraw erc20 cfg0 ts0 initState 5 =
        (some .NotOwner, ts0, initState) :=
  ⟨by decide, withdraw_not_owner erc20 cfg0 ts0 initState 5 (by decide)⟩

/-- Closed form of a successful `fund`: the pulled token state is committed,
the caller is appended to the roster exactly when its recorded contribution
was zero, and its contribution entry grows by `amount`. -/
theorem fund_ok_eq {σ : Type} (tok : TokenService σ) (cfg : FundMeConfig)
    (ts ts2 : σ) (st : FundMeState) (sender amount : Nat)
    (hmin : MINIMUM_USDC ≤ amount)
    (hok : tok.transferFrom ts sender cfg.self amount = some ts2) :
    fund tok cfg ts st sender amount =
      .ok (ts2,
        { addressToAmountFunded := fun x =>
            if x = sender then st.addressToAmountFunded x + amount
            else st.addressToAmountFunded x
          s_funders :=
            if st.addressToAmountFunded sender = 0 then
              st.s_funders ++ [sender]
            else st.s_funders }) := by
  unfold fund
  rw [if_neg (Nat.not_lt.mpr hmin), hok]
  by_cases h : st.addressToAmountFunded sender = 0 <;> simp [h]

/-- `runFund` form of `fund_ok_eq`: the observable outcome of a successful
`fund` transaction. -/
theorem runFund_ok_eq {σ : Type} (tok : TokenService σ) (cfg : FundMeConfig)
    (ts ts2 : σ) (st : FundMeState) (sender amount : Nat)
    (hmin : MINIMUM_USDC ≤ amount)
    (hok : tok.transferFrom ts sender cfg.self amount = some ts2) :
    runFund tok cfg ts st sender amount =
      (none, ts2,
        { addressToAmountFunded := fun x =>
            if x = sender then st.addressToAmountFunded x + amount
            else st.addressToAmountFunded x
          s_funders :=
            if st.addressToAmountFunded sender = 0 then
              st.s_funders ++ [sender]
            else st.s_funders }) := by
  unfold runFund
  rw [fund_ok_eq tok cfg ts ts2 st sender amount hmin hok]

/-- C7: a caller whose recorded contribution is zero who successfully
deposits `amount ≥ MINIMUM_USDC` is appended to the funder roster exactly
once (the new roster is the old roster with the caller appended at the
back), and its recorded contribution afterwards equals `amount`. -/
theorem fund_first_deposit {σ : Type} (tok : TokenService σ)
    (cfg : FundMeConfig) (ts ts2 : σ) (st : FundMeState) (sender amount : Nat)
    (hmin : MINIMUM_USDC ≤ amount)
    (h0 : st.addressToAmountFunded sender = 0)
    (hok : tok.transferFrom ts sender cfg.self amount = some ts2) :
    (runFund tok cfg ts st sender amount).1 = none ∧
    (runFund tok cfg ts st sender amount).2.2.s_funders =
      st.s_funders ++ [sender] ∧
    (runFund tok cfg ts st sender amount).2.2.addressToAmountFunded sender =
      amount := by
  rw [runFund_ok_eq tok cfg ts ts2 st sender amount hmin hok]
  simp [h0]

/-- Witness for `fund_first_deposit`: fresh address `5` deposits the
minimum amount against the ERC20 double. -/
theorem fund_first_deposit_witness :
    MINIMUM_USDC ≤ 1000000 ∧
    initState.addressToAmountFunded 5 = 0 ∧
    ((runFund erc20 cfg0 tsW initState 5 1000000).1 = none ∧
     (runFund erc20 cfg0 tsW initState 5 1000000).2.2.s_funders =
       initState.s_funders ++ [5] ∧
     (runFund erc20 cfg0 tsW initState 5 1000000).2.2.addressToAmountFunded 5 =
       1000000) :=
  ⟨by decide, rfl,
    fund_first_deposit erc20 cfg0 tsW tsW1 initState 5 1000000
      (by decide) rfl rfl⟩

/-- C8: an identity with zero recorded contribution and no roster entry that
makes two successful deposits of `a` then `b` (no intervening withdraw) ends
with recorded contribution `a + b` and appears in the roster exactly once. -/
theorem fund_accumulation {σ : Type} (tok : TokenService σ)
    (cfg : FundMeConfig) (ts ts1 ts2 : σ) (st : FundMeState)
    (sender a b : Nat)
    (ha : MINIMUM_USDC ≤ a) (hb : MINIMUM_USDC ≤ b)
    (h0 : st.addressToAmountFunded sender = 0)
    (hmem : sender ∉ st.s_funders)
    (hok1 : tok.transferFrom ts sender cfg.self a = some ts1)
    (hok2 : tok.transferFrom ts1 sender cfg.self b = some ts2) :
    (runFund tok cfg ts st sender a).1 = none ∧
    (runFund tok cfg (runFund tok cfg ts st sender a).2.1
        (runFund tok cfg ts st sender a).2.2 sender b).1 = none ∧
    (runFund tok cfg (runFund tok cfg ts st sender a).2.1
        (runFund tok cfg ts st sender a).2.2 sender b).2.2.addressToAmountFunded
        sender = a + b ∧
    ((runFund tok cfg (runFund tok cfg ts st sender a).2.1
        (runFund tok cfg ts st sender a).2.2 sender b).2.2.s_funders).count
        sender = 1 := by
  rw [runFund_ok_eq tok cfg ts ts1 st sender a ha hok1]
  have hane : st.addressToAmountFunded sender + a ≠ 0 := by
    have : 0 < a := lt_of_lt_of_le (by decide) ha
    omega
  have ha0 : a ≠ 0 := by
    have : 0 < a := lt_of_lt_of_le (by decide) ha
    omega
  rw [runFund_ok_eq tok cfg ts1 ts2 _ sender b hb hok2]
  simp [h0, hane, ha0, List.count_append,
    List.count_eq_zero.mpr hmem, Nat.add_assoc]

/-- Witness for `fund_accumulation`: address `5` deposits the minimum amount
twice against the ERC20 double. -/
theorem fund_accumulation_witness :
    MINIMUM_USDC ≤ 1000000 ∧
    initState.addressToAmountFunded 5 = 0 ∧
    (5 : Nat) ∉ initState.s_funders ∧
    ((runFund erc20 cfg0 tsW initState 5 1000000).1 = none ∧
     (runFund erc20 cfg0 (runFund erc20 cfg0 tsW initState 5 1000000).2.1
        (runFund erc20 cfg0 tsW initState 5 1000000).2.2 5 1000000).1 =
       none ∧
     (runFund erc20 cfg0 (runFund erc20 cfg0 tsW initState 5 1000000).2.1
        (runFund erc20 cfg0 tsW initState 5 1000000).2.2 5
        1000000).2.2.addressToAmountFunded 5 = 1000000 + 1000000 ∧
     ((runFund erc20 cfg0 (runFund erc20 cfg0 tsW initState 5 1000000).2.1
        (runFund erc20 cfg0 tsW initState 5 1000000).2.2 5
        1000000).2.2.s_funders).count 5 = 1) :=
  ⟨by decide, rfl, by decide,
    fund_accumulation erc20 cfg0 tsW tsW1 tsW2 initState 5 1000000 1000000
      (by decide) (by decide) rfl (by decide) rfl rfl⟩

/-- Pointwise effect of the reset loop: a roster member's entry becomes `0`,
every other entry is untouched. -/
theorem resetFunders_eq (m : Nat → Nat) (l : List Nat) (a : Nat) :
    resetFunders m l a = if a ∈ l then 0 else m a := by
  induction l generalizing m with
  | nil => simp [resetFunders]
  | cons x rest ih =>
    rw [resetFunders, ih]
    by_cases hr : a ∈ rest
    · simp [hr, List.mem_cons]
    · by_cases hx : a = x <;> simp [hr, hx, List.mem_cons]

/-- Closed form of a successful `withdraw` by the owner: the pushed token
state is committed, every roster member's contribution entry is zeroed, and
the roster is replaced by the empty list. -/
theorem withdraw_ok_eq {σ : Type} (tok : TokenService σ) (cfg : FundMeConfig)
    (ts ts2 : σ) (st : FundMeState)
    (hok : tok.transfer ts cfg.self cfg.i_owner (tok.balanceOf ts cfg.self) =
      some ts2) :
    withdraw tok cfg ts st cfg.i_owner =
      .ok (ts2,
        { addressToAmountFunded :=
            resetFunders st.addressToAmountFunded st.s_funders
          s_funders := [] }) := by
  unfold withdraw
  simp [hok]

/-- `runWithdraw` form of `withdraw_ok_eq`. -/
theorem runWithdraw_ok_eq {σ : Type} (tok : TokenService σ)
    (cfg : FundMeConfig) (ts ts2 : σ) (st : FundMeState)
    (hok : tok.transfer ts cfg.self cfg.i_owner (tok.balanceOf ts cfg.self) =
      some ts2) :
    runWithdraw tok cfg ts st cfg.i_owner =
      (none, ts2,
        { addressToAmountFunded :=
            resetFunders st.addressToAmountFunded st.s_funders
          s_funders := [] }) := by
  unfold runWithdraw
  rw [withdraw_ok_eq tok cfg ts ts2 st hok]

/-- C3: with funders `F1` (contribution `100`) and `F2` (contribution `250`)
as the whole roster and a ledger token balance of `350` (no out-of-band
transfers), a successful owner `withdraw` against the ERC20 service zeroes
both contributions, empties the roster, drives the ledger's token balance to
`0`, and increases the owner's token balance by exactly `350`. -/
theorem withdraw_sweep_correct (cfg : FundMeConfig) (ts : ERC20State)
    (st : FundMeState) (F1 F2 : Nat)
    (hso : cfg.self ≠ cfg.i_owner)
    (h1 : st.addressToAmountFunded F1 = 100)
    (h2 : st.addressToAmountFunded F2 = 250)
    (hr : st.s_funders = [F1, F2])
    (hb : ts.balances cfg.self = 350) :
    (runWithdraw erc20 cfg ts st cfg.i_owner).1 = none ∧
    (runWithdraw erc20 cfg ts st cfg.i_owner).2.2.addressToAmountFunded F1 =
      0 ∧
    (runWithdraw erc20 cfg ts st cfg.i_owner).2.2.addressToAmountFunded F2 =
      0 ∧
    (runWithdraw erc20 cfg ts st cfg.i_owner).2.2.s_funders = [] ∧
    (runWithdraw erc20 cfg ts st cfg.i_owner).2.1.balances cfg.self = 0 ∧
    (runWithdraw erc20 cfg ts st cfg.i_owner).2.1.balances cfg.i_owner =
      ts.balances cfg.i_owner + 350 := by
  have hok : erc20.transfer ts cfg.self cfg.i_owner
      (erc20.balanceOf ts cfg.self) =
      some { ts with
              balances := moveBal ts.balances cfg.self cfg.i_owner
                (ts.balances cfg.self) } := by
    simp [erc20, erc20Transfer]
  rw [runWithdraw_ok_eq erc20 cfg ts _ st hok]
  refine ⟨rfl, ?_, ?_, rfl, ?_, ?_⟩
  · simp [resetFunders_eq, hr]
  · simp [resetFunders_eq, hr]
  · simp [moveBal, hso]
  · simp [moveBal, hso, Ne.symm hso, hb]

/-- Witness for `withdraw_sweep_correct` at owner `1`, contract `2`,
funders `3` and `4`. -/
theorem withdraw_sweep_correct_witness :
    cfg0.self ≠ cfg0.i_owner ∧
    stC3.addressToAmountFunded 3 = 100 ∧
    stC3.addressToAmountFunded 4 = 250 ∧
    stC3.s_funders = [3, 4] ∧
    tsC3.balances cfg0.self = 350 ∧
    ((runWithdraw erc20 cfg0 tsC3 stC3 cfg0.i_owner).1 = none ∧
     (runWithdraw erc20 cfg0 tsC3 stC3 cfg0.i_owner).2.2.addressToAmountFunded
       3 = 0 ∧
     (runWithdraw erc20 cfg0 tsC3 stC3 cfg0.i_owner).2.2.addressToAmountFunded
       4 = 0 ∧
     (runWithdraw erc20 cfg0 tsC3 stC3 cfg0.i_owner).2.2.s_funders = [] ∧
     (runWithdraw erc20 cfg0 tsC3 stC3 cfg0.i_owner).2.1.balances cfg0.self =
       0 ∧
     (runWithdraw erc20 cfg0 tsC3 stC3 cfg0.i_owner).2.1.balances
       cfg0.i_owner = tsC3.balances cfg0.i_owner + 350) :=
  ⟨by decide, rfl, rfl, rfl, rfl,
    withdraw_sweep_correct cfg0 tsC3 stC3 3 4 (by decide) rfl rfl rfl rfl⟩

/-- Counterexample to C1 as stated: the owner calls `withdraw` against a
token whose push reports failure; the operation does fail with
`TransferFailed`, but the revert rolls the local bookkeeping back, so the
funder roster is NOT emptied and the contribution entry is NOT zeroed —
contradicting the claimed post-state of zeroed bookkeeping. -/
theorem withdraw_push_failure_counterexample :
    (runWithdraw failTok cfg0 () stC1 cfg0.i_owner).1 =
      some FundMeError.TransferFailed ∧
    ¬((runWithdraw failTok cfg0 () stC1 cfg0.i_owner).2.2.s_funders = [] ∧
      (runWithdraw failTok cfg0 () stC1 cfg0.i_owner).2.2.addressToAmountFunded
        5 = 0) := by
  constructor
  · rfl
  · intro h
    exact absurd h.2 (by decide)

/-- C1 amended: if the owner calls `withdraw` and the final external push
reports failure, the operation fails with `TransferFailed` and — because the
revert rolls back the local mutations made earlier in the operation — the
contribution mapping, the funder roster, and the external token state
(hence the token balance held for the ledger) are all unchanged. -/
theorem withdraw_push_failure {σ : Type} (tok : TokenService σ)
    (cfg : FundMeConfig) (ts : σ) (st : FundMeState)
    (hfail : tok.transfer ts cfg.self cfg.i_owner (tok.balanceOf ts cfg.self) =
      none) :
    runWithdraw tok cfg ts st cfg.i_owner =
      (some .TransferFailed, ts, st) := by
  simp [runWithdraw, withdraw, hfail]

/-- Witness for `withdraw_push_failure` against the always-failing token
double. -/
theorem withdraw_push_failure_witness :
    failTok.transfer () cfg0.self cfg0.i_owner
      (failTok.balanceOf () cfg0.self) = none ∧
    runWithdraw failTok cfg0 () stC1 cfg0.i_owner =
      (some FundMeError.TransferFailed, (), stC1) :=
  ⟨rfl, withdraw_push_failure failTok cfg0 () stC1 rfl⟩

/-- A `fund` transaction either leaves the roster unchanged or appends the
caller at the back; it never removes an entry. -/
theorem runFund_funders {σ : Type} (tok : TokenService σ) (cfg : FundMeConfig)
    (ts : σ) (st : FundMeState) (sender amount : Nat) :
    (runFund tok cfg ts st sender amount).2.2.s_funders = st.s_funders ∨
    (runFund tok cfg ts st sender amount).2.2.s_funders =
      st.s_funders ++ [sender] := by
  unfold runFund fund
  by_cases hlt : amount < MINIMUM_USDC
  · simp [hlt]
  · rw [if_neg hlt]
    cases htf : tok.transferFrom ts sender cfg.self amount with
    | none => simp
    | some ts2 =>
      by_cases h0 : st.addressToAmountFunded sender = 0 <;> simp [h0]

/-- A `withdraw` transaction that completes without error leaves the roster
empty. -/
theorem runWithdraw_success_funders {σ : Type} (tok : TokenService σ)
    (cfg : FundMeConfig) (ts : σ) (st : FundMeState) (sender : Nat)
    (h : (runWithdraw tok cfg ts st sender).1 = none) :
    (runWithdraw tok cfg ts st sender).2.2.s_funders = [] := by
  unfold runWithdraw withdraw at h ⊢
  by_cases ho : sender ≠ cfg.i_owner
  · simp [ho] at h
  · rw [if_neg ho] at h ⊢
    cases htr : tok.transfer ts cfg.self cfg.i_owner
        (tok.balanceOf ts cfg.self) with
    | none => simp [htr] at h
    | some ts2 => simp [htr]

/-- Counterexample to C2 as stated: identity `5` makes a successful deposit
(and is then on the roster), the owner performs a successful `withdraw`, and
afterwards `5` is no longer present in the funder roster — `withdraw` does
remove identities from the roster, not merely zero their entries. -/
theorem roster_history_counterexample :
    wC2a.1 = none ∧ 5 ∈ wC2a.2.2.s_funders ∧
    wC2b.1 = none ∧ 5 ∉ wC2b.2.2.s_funders := by
  refine ⟨rfl, by decide, rfl, by decide⟩

/-- C2 amended: an identity on the funder roster stays on it across every
`fund` transaction (successful or reverted), but a successful `withdraw`
empties the roster, removing the identity along with every other entry; it
is absent until its next successful deposit. -/
theorem roster_membership_dynamics {σ : Type} (tok : TokenService σ)
    (cfg : FundMeConfig) (ts : σ) (st : FundMeState)
    (sender amount d : Nat) (hd : d ∈ st.s_funders) :
    d ∈ (runFund tok cfg ts st sender amount).2.2.s_funders ∧
    ((runWithdraw tok cfg ts st sender).1 = none →
      (runWithdraw tok cfg ts st sender).2.2.s_funders = []) := by
  constructor
  · rcases runFund_funders tok cfg ts st sender amount with h | h <;> rw [h]
    · exact hd
    · exact List.mem_append_left _ hd
  · exact runWithdraw_success_funders tok cfg ts st sender

/-- Witness for `roster_membership_dynamics`: identity `5` on the roster of
`stC1`, with a deposit attempt by `7` and a withdraw attempt by `7`. -/
theorem roster_membership_dynamics_witness :
    5 ∈ stC1.s_funders ∧
    (5 ∈ (runFund erc20 cfg0 tsC3 stC1 7 0).2.2.s_funders ∧
     ((runWithdraw erc20 cfg0 tsC3 stC1 7).1 = none →
       (runWithdraw erc20 cfg0 tsC3 stC1 7).2.2.s_funders = [])) :=
  ⟨by decide, roster_membership_dynamics erc20 cfg0 tsC3 stC1 7 0 5 (by decide)⟩

/-- A successful `fund` preserves the bookkeeping invariant. -/
theorem rosterInv_fund {σ : Type} (tok : TokenService σ) (cfg : FundMeConfig)
    (ts ts2 : σ) (st st2 : FundMeState) (sender amount : Nat)
    (hinv : RosterInv st)
    (hf : fund tok cfg ts st sender amount = .ok (ts2, st2)) :
    RosterInv st2 := by
  unfold fund at hf
  by_cases hlt : amount < MINIMUM_USDC
  · simp [hlt] at hf
  · rw [if_neg hlt] at hf
    have hamt : amount ≠ 0 := by
      have : MINIMUM_USDC ≤ amount := Nat.not_lt.mp hlt
      have : 0 < amount := lt_of_lt_of_le (by decide) this
      omega
    cases htf : tok.transferFrom ts sender cfg.self amount with
    | none => rw [htf] at hf; exact absurd hf (by simp)
    | some ts3 =>
      rw [htf] at hf
      simp only [Except.ok.injEq, Prod.mk.injEq] at hf
      obtain ⟨-, hst⟩ := hf
      by_cases h0 : st.addressToAmountFunded sender = 0
      · have hmem : sender ∉ st.s_funders := fun hm =>
          absurd h0 ((hinv.2 sender).mp hm)
        rw [if_pos h0] at hst
        subst hst
        refine ⟨?_, ?_⟩
        · simpa [List.nodup_append] using ⟨hinv.1, hmem⟩
        · intro a
          by_cases ha : a = sender
          · subst ha
            simp [h0, hamt]
          · simp [ha, hinv.2 a]
      · rw [if_neg h0] at hst
        subst hst
        refine ⟨hinv.1, ?_⟩
        intro a
        by_cases ha : a = sender
        · have h1m : sender ∈ st.s_funders := (hinv.2 sender).mpr h0
          constructor
          · intro _
            simp [ha]
            omega
          · intro _
            rw [ha]
            exact h1m
        · simp [ha, hinv.2 a]

/-- A successful `withdraw` re-establishes the bookkeeping invariant in the
freshly swept state. -/
theorem rosterInv_withdraw {σ : Type} (tok : TokenService σ)
    (cfg : FundMeConfig) (ts ts2 : σ) (st st2 : FundMeState) (sender : Nat)
    (hinv : RosterInv st)
    (hw : withdraw tok cfg ts st sender = .ok (ts2, st2)) :
    RosterInv st2 := by
  unfold withdraw at hw
  by_cases ho : sender ≠ cfg.i_owner
  · simp [ho] at hw
  · rw [if_neg ho] at hw
    cases htr : tok.transfer ts cfg.self cfg.i_owner
        (tok.balanceOf ts cfg.self) with
    | none => simp [htr] at hw
    | some ts3 =>
      simp only [htr, Except.ok.injEq, Prod.mk.injEq] at hw
      obtain ⟨-, hst⟩ := hw
      subst hst
      refine ⟨List.nodup_nil, ?_⟩
      intro a
      simp only [List.not_mem_nil, false_iff, not_not, resetFunders_eq]
      by_cases ha : a ∈ st.s_funders
      · simp [ha]
      · simp [ha]
        exact not_not.mp (fun hc => ha ((hinv.2 a).mpr hc))

/-- Every state reachable from construction satisfies the bookkeeping
invariant. -/
theorem rosterInv_reachable (cfg : FundMeConfig) (st : FundMeState)
    (h : Reachable cfg st) : RosterInv st := by
  induction h with
  | init =>
    refine ⟨List.nodup_nil, ?_⟩
    intro a
    simp [initState]
  | fundStep tok ts ts2 stp stp2 sender amount hr hf ih =>
    exact rosterInv_fund tok cfg ts ts2 stp stp2 sender amount ih hf
  | withdrawStep tok ts ts2 stp stp2 sender hr hw ih =>
    exact rosterInv_withdraw tok cfg ts ts2 stp stp2 sender ih hw

/-- C9: in every state reachable from construction by completed `fund` and
`withdraw` transactions, each identity appears in the funder roster at most
once. -/
theorem roster_no_duplicates (cfg : FundMeConfig) (st : FundMeState)
    (h : Reachable cfg st) (a : Nat) : st.s_funders.count a ≤ 1 :=
  List.nodup_iff_count_le_one.mp (rosterInv_reachable cfg st h).1 a

/-- C10: in every state reachable from construction by completed `fund` and
`withdraw` transactions, an identity is on the funder roster exactly when
its recorded contribution is nonzero — the append condition of `fund`
coincides with roster non-membership because `withdraw` empties the roster
in the same step in which it zeroes all tracked contributions. -/
theorem roster_iff_nonzero (cfg : FundMeConfig) (st : FundMeState)
    (h : Reachable cfg st) (a : Nat) :
    a ∈ st.s_funders ↔ st.addressToAmountFunded a ≠ 0 :=
  (rosterInv_reachable cfg st h).2 a

/-- Witness for `roster_no_duplicates` in the reachable state `stAfter`. -/
theorem roster_no_duplicates_witness : stAfter.s_funders.count 5 ≤ 1 :=
  roster_no_duplicates cfg0 stAfter
    (Reachable.fundStep erc20 tsW tsW1 initState stAfter 5 1000000
      Reachable.init rfl) 5

/-- Witness for `roster_iff_nonzero` in the reachable state `stAfter`. -/
theorem roster_iff_nonzero_witness :
    5 ∈ stAfter.s_funders ↔ stAfter.addressToAmountFunded 5 ≠ 0 :=
  roster_iff_nonzero cfg0 stAfter
    (Reachable.fundStep erc20 tsW tsW1 initState stAfter 5 1000000
      Reachable.init rfl) 5
